import Mathlib

/-!
Verification of the sandboxed workspace file-management service
(tutorials/03_file_manager/server.py).

The embedding models the host filesystem as an association list from
absolute paths (lists of segments) to nodes.  Pure string processing
(path joining, canonicalization, glob matching, line splitting,
lowercasing, stripping) is translated directly from the Python source;
the host-level byte/codec layer (whether a file's raw bytes decode, and
whether opening is permitted) is abstracted into per-file boolean flags,
since those bytes live outside the subsystem under study.
-/

/-- Python exceptions that can arise inside the embedded operations.
An `Except.error` escaping an operation models an uncaught exception
propagating to the dispatcher. -/
inductive PyExc where
  | valueError
  | lookupError
  | unicodeDecodeError
  | permissionError
  | isADirectoryError
  | fileExistsError
deriving DecidableEq

/-- A filesystem node: a directory, or a regular file carrying its
decoded text content plus two flags that abstract the host layer:
whether opening the file succeeds (no PermissionError) and whether the
raw bytes decode under a recognized text codec. -/
inductive Node where
  | dir
  | file (content : String) (readable : Bool) (decodable : Bool)
deriving DecidableEq

/-- The model filesystem: absolute paths (segment lists) mapped to nodes. -/
abbrev Fs := List (List String × Node)

/-- Split a path string on the separator character, as Python's path
joining sees it (structural recursion so concrete instances evaluate). -/
def splitSlashAux : List Char → List Char → List String
  | [], cur => [String.mk cur.reverse]
  | c :: rest, cur =>
    if c = '/' then String.mk cur.reverse :: splitSlashAux rest []
    else splitSlashAux rest (c :: cur)

/-- Split a relative-path string into raw segments. -/
def splitSlash (s : String) : List String := splitSlashAux s.toList []

/-- Whether the caller string is an absolute path (leading separator),
in which case Python's slash operator discards the workspace base. -/
def startsSlash (s : String) : Bool :=
  match s.toList with
  | c :: _ => c == '/'
  | [] => false

/-- Model of joining the workspace root with a caller path and fully
canonicalizing the result, as done by `(WORKSPACE / relative).resolve()`
at server.py line 47: empty and dot segments vanish, a dot-dot segment
removes the last segment, other segments are appended.  (Symbolic links
are outside the model; resolution here is the lexical part.) -/
def resolveSegs (root : List String) (rel : String) : List String :=
  (splitSlash rel).foldl
    (fun acc seg =>
      if seg = "" ∨ seg = "." then acc
      else if seg = ".." then acc.dropLast
      else acc ++ [seg])
    (if startsSlash rel then [] else root)

/-- Render a canonical absolute path the way `str(Path)` does. -/
def pathStr (segs : List String) : String := "/" ++ String.intercalate "/" segs

/-- Embedding of `_safe_path` (server.py lines 40-56): join and resolve
the caller path, then keep it only if the rendered absolute path string
starts with the rendered workspace-root string (the source's
`str(full_path).startswith(str(WORKSPACE.resolve()))` on line 50);
otherwise raise ValueError. -/
def safe_path (root : List String) (rel : String) : Except PyExc (List String) :=
  let full := resolveSegs root rel
  if ((pathStr root).toList).isPrefixOf ((pathStr full).toList) then .ok full
  else .error .valueError

/-- Look a path up in the model filesystem (first matching entry). -/
def lookupNode (fs : Fs) (p : List String) : Option Node :=
  match fs.find? (fun e => e.1 == p) with
  | some e => some e.2
  | none => none

/-- Whether a node exists at the given path (`Path.exists`). -/
def pathExists (fs : Fs) (p : List String) : Bool := (lookupNode fs p).isSome

/-- Last segment of a path: the file's name. -/
def lastSeg (p : List String) : String := p.getLastD ""

/-- Lowercase a string; Python's `str.lower` restricted to the ASCII
letters that occur in extension comparisons. -/
def pyLower (s : String) : String := String.mk (s.toList.map Char.toLower)

/-- Index of the last dot in a name, scanning left to right. -/
def lastDotIdxAux : List Char → Nat → Option Nat → Option Nat
  | [], _, best => best
  | c :: rest, i, best =>
    lastDotIdxAux rest (i + 1) (if c = '.' then some i else best)

/-- Python's `Path.suffix`: the name from its last dot, provided that
dot is neither the first nor the last character of the name. -/
def pySuffix (name : String) : String :=
  match lastDotIdxAux name.toList 0 none with
  | none => ""
  | some i =>
    if 0 < i ∧ i < name.length - 1 then String.mk (name.toList.drop i) else ""

/-- The binary-extension denylist of server.py line 128. -/
def binary_extensions : List String :=
  [".png", ".jpg", ".jpeg", ".gif", ".pdf", ".zip", ".exe"]

/-- Whether a resolved path's name carries a denylisted extension
(server.py line 129: `path.suffix.lower() in binary_extensions`). -/
def isBinaryName (rp : List String) : Bool :=
  binary_extensions.contains (pyLower (pySuffix (lastSeg rp)))

/-- Model of the host codec registry at the subsystem boundary: the
encoding names the Python install recognizes (a representative list; an
unrecognized name makes `read_text` raise LookupError before decoding). -/
def known_encodings : List String :=
  ["utf-8", "utf8", "ascii", "latin-1", "cp949", "euc-kr"]

/-- Count of line-separator characters, Python's `content.count(chr(10))`. -/
def countNl (s : String) : Nat := s.toList.count '\n'

/-- Universal-newline translation performed by Python's text-mode read
(`Path.read_text` opens with the default `newline=None`): a carriage
return followed by a line feed, and a lone carriage return, are both
returned as a single line feed.  Structural recursion so concrete
instances evaluate. -/
def unlAux : List Char → List Char
  | [] => []
  | [c] => if c = '\r' then ['\n'] else [c]
  | c :: c2 :: rest =>
    if c = '\r' then
      if c2 = '\n' then '\n' :: unlAux rest
      else '\n' :: unlAux (c2 :: rest)
    else c :: unlAux (c2 :: rest)

/-- The text Python's text-mode read hands back for stored content
(`write_text` writes the string's bytes unchanged on this platform; the
translation happens on the way back in). -/
def unlNorm (s : String) : String := String.mk (unlAux s.toList)

/-- The data interpolated into each of `read_file`'s return templates
(server.py lines 109-141), one constructor per return site. -/
inductive ReadResult where
  | pathEscape
  | notFound
  | notAFile
  | binaryRejected
  | decodeError (encoding : String)
  | content (text : String) (lines : Nat)
deriving DecidableEq

/-- Embedding of `read_file` (server.py lines 109-141): safety check,
existence check, regular-file check, binary-extension check, then
`read_text`, which returns the universal-newline translation of the
stored text; the line count of line 134 is computed on that returned
text.  Only UnicodeDecodeError is caught (line 140); a failed open
(PermissionError) or an unrecognized encoding name (LookupError)
propagates as an uncaught exception. -/
def read_file (root : List String) (fs : Fs) (file_path encoding : String) :
    Except PyExc ReadResult :=
  match safe_path root file_path with
  | .error _ => .ok .pathEscape
  | .ok path =>
    match lookupNode fs path with
    | none => .ok .notFound
    | some .dir => .ok .notAFile
    | some (.file c readable decodable) =>
      if isBinaryName path then .ok .binaryRejected
      else if !readable then .error .permissionError
      else if !(known_encodings.contains encoding) then .error .lookupError
      else if !decodable then .ok (.decodeError encoding)
      else .ok (.content (unlNorm c) (countNl (unlNorm c) + 1))

/-- The data interpolated into each of `write_file`'s return templates
(server.py lines 148-175), one constructor per return site; `written`
carries `len(content)` and the newline count + 1 from line 174. -/
inductive WriteResult where
  | pathEscape
  | alreadyExists
  | written (size : Nat) (lines : Nat)
deriving DecidableEq

/-- All take-style ancestors of a path, shortest first (the chain that
`mkdir(parents=True)` walks). -/
def prefixesOf (p : List String) : List (List String) :=
  (List.range (p.length + 1)).map fun n => p.take n

/-- Whether the node at a path is a regular file. -/
def isFileAt (fs : Fs) (p : List String) : Bool :=
  match lookupNode fs p with
  | some (.file _ _ _) => true
  | _ => false

/-- Model of `path.parent.mkdir(parents=True, exist_ok=True)` (server.py
line 168): raises if some ancestor (or the target) is an existing
regular file, otherwise creates every missing ancestor directory. -/
def mkdir_parents (fs : Fs) (d : List String) : Except PyExc Fs :=
  if (prefixesOf d).any (fun q => isFileAt fs q) then .error .fileExistsError
  else .ok ((prefixesOf d).foldl
    (fun acc q => if pathExists acc q then acc else (q, Node.dir) :: acc) fs)

/-- Replace (or insert) the node stored at a path. -/
def setNode (fs : Fs) (p : List String) (n : Node) : Fs :=
  (p, n) :: fs.filter fun e => !(e.1 == p)

/-- Embedding of `write_file` (server.py lines 148-175): safety check,
existence-and-overwrite guard, parent creation, then `write_text` as
UTF-8 (which raises IsADirectoryError when the target node is a
directory; nothing after the guard is wrapped in a handler). -/
def write_file (root : List String) (fs : Fs) (file_path content : String)
    (overwrite : Bool) : Except PyExc (WriteResult × Fs) :=
  match safe_path root file_path with
  | .error _ => .ok (.pathEscape, fs)
  | .ok path =>
    if pathExists fs path && !overwrite then .ok (.alreadyExists, fs)
    else
      match mkdir_parents fs path.dropLast with
      | .error e => .error e
      | .ok fs1 =>
        match lookupNode fs1 path with
        | some .dir => .error .isADirectoryError
        | _ => .ok (.written content.length (countNl content + 1),
                    setNode fs1 path (.file content true true))

/-- C1: the source's confinement check is a string-prefix comparison, so
a traversal path that lands in a sibling directory whose absolute name
extends the workspace root's name as a string is accepted, even though
the workspace root is not an ancestor of it in the segment sequence;
a traversal path outside that string prefix is rejected with ValueError. -/
theorem c1_safe_path_sibling_escape :
    safe_path ["home", "user", "mcp_workspace"] "../mcp_workspace-evil/secret"
      = .ok ["home", "user", "mcp_workspace-evil", "secret"]
    ∧ (["home", "user", "mcp_workspace"].isPrefixOf
        ["home", "user", "mcp_workspace-evil", "secret"]) = false
    ∧ safe_path ["home", "user", "mcp_workspace"] "../../etc/passwd"
      = .error .valueError :=
  ⟨rfl, rfl, rfl⟩

/-- Shell-style glob matching over names (`fnmatch` as used by
`Path.glob`/`Path.rglob`): a star matches any run of characters (some
suffix of the remaining name matches the rest of the pattern), a
question mark one character, anything else itself.  Recursion is
structural on the pattern so concrete instances evaluate. -/
def globMatch (p : List Char) (s : List Char) : Bool :=
  match p with
  | [] => s.isEmpty
  | '*' :: ps => (List.range (s.length + 1)).any fun i => globMatch ps (s.drop i)
  | '?' :: ps =>
    match s with
    | [] => false
    | _ :: ss => globMatch ps ss
  | pc :: ps =>
    match s with
    | [] => false
    | c :: ss => pc == c && globMatch ps ss

/-- One row of the listing: the child's name, its kind, and for files
the byte size reported by `stat` (UTF-8 size of the stored text). -/
structure FileEntry where
  name : String
  isDir : Bool
  size : Nat
deriving DecidableEq

/-- The data interpolated into each of `list_files`'s return templates
(server.py lines 63-102), one constructor per return site. -/
inductive ListResult where
  | pathEscape
  | notFound
  | notADirectory
  | noMatch
  | listing (entries : List FileEntry)
deriving DecidableEq

/-- Listing row for a node. -/
def nodeEntry (name : String) (n : Node) : FileEntry :=
  match n with
  | .dir => { name := name, isDir := true, size := 0 }
  | .file c _ _ => { name := name, isDir := false, size := c.utf8ByteSize }

/-- Immediate children of a directory in the model filesystem. -/
def childrenOf (fs : Fs) (t : List String) : List FileEntry :=
  fs.filterMap fun e =>
    if e.1.dropLast == t && !(e.1 == t) then some (nodeEntry (lastSeg e.1) e.2)
    else none

/-- The children whose names match the glob pattern
(`target.glob(pattern)`, server.py line 81). -/
def globChildren (fs : Fs) (t : List String) (pat : String) : List FileEntry :=
  (childrenOf fs t).filter fun e => globMatch pat.toList e.name.toList

/-- Name order on listing rows, the order `sorted` uses for children of
one directory. -/
def byName (a b : FileEntry) : Prop := a.name ≤ b.name

instance : DecidableRel byName :=
  fun a b => inferInstanceAs (Decidable (a.name ≤ b.name))

instance : IsTotal FileEntry byName := ⟨fun a b => le_total a.name b.name⟩

instance : IsTrans FileEntry byName := ⟨fun _ _ _ h1 h2 => le_trans h1 h2⟩

/-- Embedding of `list_files` (server.py lines 63-102): safety check,
existence check, directory check, then the sorted glob of immediate
children; an empty match yields the informational no-match message of
line 83 rather than an error. -/
def list_files (root : List String) (fs : Fs) (directory pat : String) : ListResult :=
  match safe_path root directory with
  | .error _ => .pathEscape
  | .ok t =>
    match lookupNode fs t with
    | none => .notFound
    | some (.file _ _ _) => .notADirectory
    | some .dir =>
      if (List.insertionSort byName (globChildren fs t pat)).isEmpty then .noMatch
      else .listing (List.insertionSort byName (globChildren fs t pat))

/-- One keyword hit: path relative to the workspace root, 1-based line
number, and the line's stripped text. -/
structure SearchHit where
  relPath : List String
  lineNo : Nat
  text : String
deriving DecidableEq

/-- Split file content on newline characters, Python's
`content.split(chr(10))` (structural recursion so instances evaluate). -/
def splitNlAux : List Char → List Char → List String
  | [], cur => [String.mk cur.reverse]
  | c :: rest, cur =>
    if c = '\n' then String.mk cur.reverse :: splitNlAux rest []
    else splitNlAux rest (c :: cur)

/-- Split a string into its lines, keeping empty pieces like Python. -/
def splitNl (s : String) : List String := splitNlAux s.toList []

/-- Characters removed by Python's `str.strip`. -/
def pySpace (c : Char) : Bool :=
  c == ' ' || c == '\t' || c == '\n' || c == '\r' || c == '\x0b' || c == '\x0c'

/-- Python's `line.strip()`: drop whitespace from both ends. -/
def pyStrip (s : String) : String :=
  String.mk (((s.toList.dropWhile pySpace).reverse.dropWhile pySpace).reverse)

/-- Whether the needle occurs as a contiguous substring of the haystack
(Python's membership test on strings). -/
def containsSub (needle : List Char) : List Char → Bool
  | [] => needle.isEmpty
  | c :: rest => needle.isPrefixOf (c :: rest) || containsSub needle rest

/-- Lowercased character sequence of a string. -/
def lowerL (s : String) : List Char := (pyLower s).toList

/-- The hits one decoded file contributes (server.py lines 208-211):
enumerate its lines from 1 and keep those where the lowercased keyword
occurs in the lowercased line, recording the stripped line text. -/
def fileHits (root k : List String) (content keyword : String) : List SearchHit :=
  (splitNl content).enum.filterMap fun pr =>
    if containsSub (lowerL keyword) (lowerL pr.2) then
      some { relPath := k.drop root.length, lineNo := pr.1 + 1, text := pyStrip pr.2 }
    else none

/-- The candidate a filesystem entry contributes to `rglob(pattern)`
followed by the `is_file` filter (server.py lines 201-203): regular
files strictly below the search directory whose name matches the
pattern, together with their content and host flags. -/
def rglobEnt (t : List String) (pat : String) (e : List String × Node) :
    Option (List String × String × Bool × Bool) :=
  match e.2 with
  | .dir => none
  | .file c r d =>
    if t.isPrefixOf e.1 && !(e.1 == t) && globMatch pat.toList (lastSeg e.1).toList
    then some (e.1, c, r, d) else none

/-- All regular files the search loop visits, in filesystem order. -/
def rglobFiles (fs : Fs) (t : List String) (pat : String) :
    List (List String × String × Bool × Bool) :=
  fs.filterMap (rglobEnt t pat)

/-- One iteration of the search loop (server.py lines 201-213): count
the file, then scan the universal-newline-translated text its
`read_text` returns — unless opening or decoding fails, in which case
the caught exception leaves only the incremented counter. -/
def searchStep (root : List String) (keyword : String)
    (acc : List SearchHit × Nat) (f : List String × String × Bool × Bool) :
    List SearchHit × Nat :=
  if f.2.2.1 && f.2.2.2 then
    (acc.1 ++ fileHits root f.1 (unlNorm f.2.1) keyword, acc.2 + 1)
  else (acc.1, acc.2 + 1)

/-- The search loop: accumulated hits and the files-searched counter. -/
def searchCore (root : List String) (fs : Fs) (t : List String)
    (keyword pat : String) : List SearchHit × Nat :=
  (rglobFiles fs t pat).foldl (searchStep root keyword) ([], 0)

/-- The data interpolated into each of `search_files`'s return templates
(server.py lines 182-227).  Only the no-hit template (lines 216-220)
interpolates the files-searched counter; the hit template (lines
222-227) shows the hit count and the hit lines. -/
inductive SearchResult where
  | pathEscape
  | notFound
  | noHits (filesSearched : Nat)
  | hits (count : Nat) (hitList : List SearchHit)
deriving DecidableEq

/-- Embedding of `search_files` (server.py lines 182-227): safety check,
existence check, then the scan loop; per-file open and decode failures
are swallowed inside the loop, so the operation itself never raises. -/
def search_files (root : List String) (fs : Fs)
    (keyword file_pattern directory : String) : SearchResult :=
  match safe_path root directory with
  | .error _ => .pathEscape
  | .ok t =>
    if !(pathExists fs t) then .notFound
    else
      if (searchCore root fs t keyword file_pattern).1.isEmpty
      then .noHits (searchCore root fs t keyword file_pattern).2
      else .hits (searchCore root fs t keyword file_pattern).1.length
             (searchCore root fs t keyword file_pattern).1

/-- The files-searched count a caller can see in the rendered reply:
present only in the no-hit template (server.py lines 216-220). -/
def reportedFilesSearched : SearchResult → Option Nat
  | .noHits n => some n
  | _ => none

/-- Whether an operation outcome is an uncaught exception reaching the
dispatcher. -/
def isCrash {α : Type} : Except PyExc α → Bool
  | .error _ => true
  | .ok _ => false

/-- A node's open-permission flag (directories always open for stat). -/
def nodeReadable : Node → Bool
  | .dir => true
  | .file _ r _ => r

/-- The write-then-read composition of C3: overwrite-write the content,
then read the same path back with the default encoding. -/
def roundTrip (root : List String) (fs : Fs) (p c : String) :
    Except PyExc ReadResult :=
  match write_file root fs p c true with
  | .error e => .error e
  | .ok r => read_file root r.2 p "utf-8"

/-- Extract the returned content and line count of a successful read. -/
def contentOf : Except PyExc ReadResult → Option (String × Nat)
  | .ok (.content t n) => some (t, n)
  | _ => none

/-- Extract the reported size and line count of a successful write. -/
def writtenOf : Except PyExc (WriteResult × Fs) → Option (Nat × Nat)
  | .ok (.written s l, _) => some (s, l)
  | _ => none

/-- A concrete workspace root used by the witnesses. -/
def root0 : List String := ["ws"]

/-- An empty workspace. -/
def fs0 : Fs := [(["ws"], Node.dir)]

/-- The workspace of the C5 scenario: `a.txt` has the keyword on its
second line, `b.txt` matches nothing. -/
def fsAB : Fs :=
  [(["ws"], Node.dir),
   (["ws", "a.txt"], Node.file "line one\nhello world" true true),
   (["ws", "b.txt"], Node.file "nothing here" true true)]

/-- A workspace with a readable text file and a subdirectory. -/
def fsD : Fs :=
  [(["ws"], Node.dir),
   (["ws", "notes.txt"], Node.file "hi" true true),
   (["ws", "d"], Node.dir)]

/-- A workspace holding only a denylisted binary file whose content is
neither openable nor decodable. -/
def fsBin : Fs :=
  [(["ws"], Node.dir),
   (["ws", "image.png"], Node.file "x" false false)]

/-- A workspace holding one regular file, for searching at a file path. -/
def fsFile : Fs :=
  [(["ws"], Node.dir),
   (["ws", "f.txt"], Node.file "hello" true true)]

/-- C2 counterexample: not every failure is rendered as a message —
reading an existing text file with an unrecognized encoding name
propagates LookupError, and overwrite-writing a path that is an
existing directory propagates IsADirectoryError. -/
theorem c2_uncaught_counterexample :
    read_file root0 fsD "notes.txt" "no-such-encoding" = .error .lookupError
    ∧ write_file root0 fsD "d" "x" true = .error .isADirectoryError :=
  ⟨rfl, rfl⟩

/-- C3 counterexample: the round trip fails as universally stated — for
the confined path `a.png` the overwrite-write succeeds (reporting 1
byte, 1 line) but the subsequent read is rejected by the
binary-extension denylist instead of returning the content; and for the
confined path `b.txt` with carriage-return content, the text-mode read
hands back the universal-newline translation, not the written string. -/
theorem c3_roundtrip_counterexample :
    writtenOf (write_file root0 fs0 "a.png" "x" true) = some (1, 1)
    ∧ roundTrip root0 fs0 "a.png" "x" = .ok .binaryRejected
    ∧ contentOf (roundTrip root0 fs0 "a.png" "x") = none
    ∧ roundTrip root0 fs0 "b.txt" "a\r\nb" = .ok (.content "a\nb" 2)
    ∧ "a\nb" ≠ "a\r\nb" :=
  ⟨rfl, rfl, rfl, rfl, by decide⟩

/-- C5 counterexample: in the two-file scenario the search returns the
hit-list message, and that rendered template carries no files-searched
count (the count appears only in the no-hit template), so the reply does
not report 2 files scanned. -/
theorem c5_files_scanned_not_reported :
    search_files root0 fsAB "hello" "*.txt" ""
      = .hits 1 [{ relPath := ["a.txt"], lineNo := 2, text := "hello world" }]
    ∧ reportedFilesSearched (search_files root0 fsAB "hello" "*.txt" "") = none :=
  ⟨rfl, rfl⟩

/-- C5 (amended): in the scenario with `a.txt` holding the keyword on
line 2 and `b.txt` matching nothing, the scan yields exactly the hit
(a.txt, 2, "hello world") with the files-searched counter at 2, the
reply is the one-hit message, the match is case-insensitive — but the
files-searched count is rendered only in the no-hit message. -/
theorem c5_search_scenario :
    searchCore root0 fsAB ["ws"] "hello" "*.txt"
      = ([{ relPath := ["a.txt"], lineNo := 2, text := "hello world" }], 2)
    ∧ search_files root0 fsAB "hello" "*.txt" ""
      = .hits 1 [{ relPath := ["a.txt"], lineNo := 2, text := "hello world" }]
    ∧ search_files root0 fsAB "HELLO" "*.txt" ""
      = .hits 1 [{ relPath := ["a.txt"], lineNo := 2, text := "hello world" }] :=
  ⟨rfl, rfl, rfl⟩

/-- C6 counterexample: writing the one-character content whose UTF-8
encoding is three bytes reports size 1 — the character count — where the
claim demands the UTF-8 byte length 3. -/
theorem c6_byte_length_counterexample :
    writtenOf (write_file root0 fs0 "k.txt" "한" true) = some (1, 1)
    ∧ ("한" : String).utf8ByteSize = 3 ∧ (1 : Nat) ≠ 3 :=
  ⟨rfl, rfl, by decide⟩

/-- A successful lookup returns the payload of some entry of the list. -/
theorem lookupNode_mem {fs : Fs} {p : List String} {n : Node}
    (h : lookupNode fs p = some n) : ∃ e, e ∈ fs ∧ e.2 = n := by
  unfold lookupNode at h
  cases hf : List.find? (fun e => e.1 == p) fs with
  | none => rw [hf] at h; cases h
  | some e =>
    rw [hf] at h
    exact ⟨e, List.mem_of_find?_eq_some hf, Option.some.inj h⟩

/-- Looking up the path just written finds the written node. -/
theorem lookupNode_setNode (fs : Fs) (p : List String) (n : Node) :
    lookupNode (setNode fs p n) p = some n := by
  unfold lookupNode setNode
  simp [List.find?]

/-- C2 (amended): every failure in the stated error taxonomy is caught
and rendered as a caller-facing message — with a recognized encoding
name and no permission failure, read never propagates an exception (path
escapes, missing paths, directories, binary extensions and decode
failures all yield messages); but an unrecognized encoding name or a
permission failure on open does propagate, as does overwrite-writing
onto an existing directory. -/
theorem c2_taxonomy_caught (root : List String) (fs : Fs) (p enc : String)
    (henc : known_encodings.contains enc = true)
    (hread : ∀ e ∈ fs, nodeReadable e.2 = true) :
    isCrash (read_file root fs p enc) = false := by
  unfold read_file
  split
  · rfl
  · rename_i path hsp
    split
    · rfl
    · rfl
    · rename_i c r dd hl
      obtain ⟨e, he, he2⟩ := lookupNode_mem hl
      have hr : r = true := by
        have hh := hread e he
        rw [he2] at hh
        simpa [nodeReadable] using hh
      subst hr
      have hmem : enc ∈ known_encodings := by simpa using henc
      by_cases hb : isBinaryName path = true
      · simp [hb, isCrash]
      · cases dd <;> simp [hb, hmem, isCrash]

/-- C2 witness: a concrete read with the default encoding on a readable
workspace returns a message, not an exception. -/
theorem c2_taxonomy_caught_witness :
    isCrash (read_file root0 fsAB "a.txt" "utf-8") = false :=
  c2_taxonomy_caught root0 fsAB "a.txt" "utf-8" (by decide) (by decide)

/-- C4: a write with overwrite left false on a path where a node already
exists returns the already-exists message and the filesystem completely
unchanged, so the pre-existing contents at the path are untouched. -/
theorem c4_no_overwrite_guard (root : List String) (fs : Fs) (p c : String)
    (rp : List String) (hsp : safe_path root p = .ok rp)
    (hex : pathExists fs rp = true) :
    write_file root fs p c false = .ok (.alreadyExists, fs) := by
  unfold write_file
  rw [hsp]
  simp [hex]

/-- C4 witness: overwriting an existing file without the overwrite flag
fails and returns the exact same filesystem. -/
theorem c4_no_overwrite_guard_witness :
    write_file root0 fsAB "a.txt" "new" false = .ok (.alreadyExists, fsAB) :=
  c4_no_overwrite_guard root0 fsAB "a.txt" "new" ["ws", "a.txt"] rfl rfl

/-- C6 (amended): a successful write reports as its size the character
count of the content (`len(content)`), which equals the UTF-8 byte size
only for ASCII content, together with the newline count plus one. -/
theorem c6_write_reports_char_count (root : List String) (fs fs1 : Fs)
    (p c : String) (ow : Bool) (sz ln : Nat)
    (hw : write_file root fs p c ow = .ok (.written sz ln, fs1)) :
    sz = c.length ∧ ln = countNl c + 1 := by
  unfold write_file at hw
  split at hw
  · simp at hw
  · split at hw
    · simp at hw
    · split at hw
      · simp at hw
      · split at hw
        · simp at hw
        · simp only [Except.ok.injEq, Prod.mk.injEq, WriteResult.written.injEq] at hw
          exact ⟨hw.1.1.symm, hw.1.2.symm⟩

/-- The filesystem produced by overwrite-writing `a.txt` with the
two-line content into the empty workspace (the literal value of the
computation, used to instantiate write-success hypotheses). -/
def fsC3w : Fs :=
  [(["ws", "a.txt"], Node.file "hi\nthere" true true),
   ([], Node.dir),
   (["ws"], Node.dir)]

/-- C6 witness: the write of a two-line ASCII content reports size 8 and
2 lines. -/
theorem c6_write_reports_char_count_witness :
    (8 : Nat) = String.length "hi\nthere" ∧ (2 : Nat) = countNl "hi\nthere" + 1 :=
  c6_write_reports_char_count root0 fs0 fsC3w "a.txt" "hi\nthere" true 8 2 rfl

/-- C7: reading an existing regular file whose name carries a
denylisted extension is rejected by the extension alone — whatever the
file's content, open-permission and decodability flags, and whatever
encoding is requested, the result is the binary-rejection message and no
open or decode is attempted. -/
theorem c7_binary_rejection (root : List String) (fs : Fs) (p enc : String)
    (rp : List String) (c : String) (r dd : Bool)
    (hsp : safe_path root p = .ok rp)
    (hl : lookupNode fs rp = some (.file c r dd))
    (hb : isBinaryName rp = true) :
    read_file root fs p enc = .ok .binaryRejected := by
  unfold read_file
  rw [hsp]
  simp [hl, hb]

/-- C7 witness: reading `image.png` — stored unreadable and undecodable,
with a nonsense requested encoding — is still cleanly rejected. -/
theorem c7_binary_rejection_witness :
    read_file root0 fsBin "image.png" "weird-enc" = .ok .binaryRejected :=
  c7_binary_rejection root0 fsBin "image.png" "weird-enc" ["ws", "image.png"]
    "x" false false rfl rfl rfl

/-- A write that reports a written size produced the filesystem obtained
by storing the content (as a readable, decodable UTF-8 text file) at the
resolved path. -/
theorem write_file_written_shape (root : List String) (fs fs1 : Fs)
    (p c : String) (ow : Bool) (sz ln : Nat)
    (hw : write_file root fs p c ow = .ok (.written sz ln, fs1)) :
    ∃ rp fs2, safe_path root p = .ok rp
      ∧ fs1 = setNode fs2 rp (.file c true true) := by
  unfold write_file at hw
  split at hw
  · simp at hw
  · rename_i path h
    split at hw
    · simp at hw
    · split at hw
      · simp at hw
      · rename_i fs2 hmk
        split at hw
        · simp at hw
        · simp only [Except.ok.injEq, Prod.mk.injEq, WriteResult.written.injEq] at hw
          exact ⟨path, fs2, h, hw.2.symm⟩

/-- Reading a confined path that stores a readable, decodable text file
without a denylisted extension returns the universal-newline translation
of the stored content and its derived line count. -/
theorem read_file_of_file (root : List String) (fs : Fs) (p enc : String)
    (rp : List String) (c : String)
    (hsp : safe_path root p = .ok rp)
    (hl : lookupNode fs rp = some (.file c true true))
    (hbin : isBinaryName rp = false)
    (hmem : enc ∈ known_encodings) :
    read_file root fs p enc
      = .ok (.content (unlNorm c) (countNl (unlNorm c) + 1)) := by
  unfold read_file
  rw [hsp]
  simp [hl, hbin, hmem]

/-- Universal-newline translation is the identity on a character list
holding no carriage return. -/
theorem unlAux_no_cr : ∀ l : List Char, '\r' ∉ l → unlAux l = l := by
  intro l
  induction l with
  | nil => intro _; rfl
  | cons c rest ih =>
    intro h
    have hc : ¬(c = '\r') := by
      rintro rfl
      exact h (List.mem_cons_self _ _)
    have hr : '\r' ∉ rest := fun hm => h (List.mem_cons_of_mem c hm)
    cases rest with
    | nil => simp [unlAux, hc]
    | cons c2 rest2 =>
      simp only [unlAux]
      rw [if_neg hc, ih hr]

/-- Universal-newline translation is the identity on a string holding no
carriage return. -/
theorem unlNorm_no_cr (c : String) (h : '\r' ∉ c.toList) : unlNorm c = c := by
  unfold unlNorm
  rw [unlAux_no_cr c.toList h]
  rfl

/-- C3 (amended): for every confined path whose name does not carry a
denylisted binary extension, a successful overwrite-write of content
followed by a read of the same path with the default encoding returns
the universal-newline translation of that content, with reported line
count equal to the translated text's newline count plus one; whenever
the content holds no carriage return the translation is the identity, so
the read returns content identical to what was written. -/
theorem c3_write_read_roundtrip (root : List String) (fs fs1 : Fs)
    (p c : String) (rp : List String) (sz ln : Nat)
    (hsp : safe_path root p = .ok rp)
    (hbin : isBinaryName rp = false)
    (hw : write_file root fs p c true = .ok (.written sz ln, fs1)) :
    read_file root fs1 p "utf-8"
      = .ok (.content (unlNorm c) (countNl (unlNorm c) + 1))
    ∧ ('\r' ∉ c.toList → unlNorm c = c) := by
  refine ⟨?_, fun h => unlNorm_no_cr c h⟩
  obtain ⟨rp2, fs2, hsp2, hfs⟩ := write_file_written_shape root fs fs1 p c true sz ln hw
  rw [hsp] at hsp2
  injection hsp2 with hrr
  subst hrr
  subst hfs
  exact read_file_of_file root _ p "utf-8" rp c hsp
    (lookupNode_setNode fs2 rp (.file c true true)) hbin (by decide)

/-- C3 witness: writing the carriage-return-free two-line content into
the empty workspace and reading it back returns that content unchanged
with line count 2. -/
theorem c3_write_read_roundtrip_witness :
    (read_file root0 fsC3w "a.txt" "utf-8"
      = .ok (.content (unlNorm "hi\nthere") (countNl (unlNorm "hi\nthere") + 1))
    ∧ ('\r' ∉ ("hi\nthere" : String).toList → unlNorm "hi\nthere" = "hi\nthere")) :=
  c3_write_read_roundtrip root0 fs0 fsC3w "a.txt" "hi\nthere" ["ws", "a.txt"]
    8 2 rfl rfl rfl

/-- C8: with confinement succeeding, listing fails with the not-found
message when the resolved path is absent and the not-a-directory message
when it is a regular file; a directory whose pattern-matching children
are empty gives the informational no-match message (not an error); a
produced listing is sorted by name, nonempty, a permutation of exactly
the pattern-matching children, and every listed name matches the
pattern; and the operation is deterministic — equal inputs give equal
results. -/
theorem c8_list_behaviour (root : List String) (fs : Fs) (d pat : String)
    (t : List String) (hsp : safe_path root d = .ok t) :
    (lookupNode fs t = none → list_files root fs d pat = .notFound)
    ∧ (∀ c r dec, lookupNode fs t = some (.file c r dec) →
        list_files root fs d pat = .notADirectory)
    ∧ (lookupNode fs t = some .dir → globChildren fs t pat = [] →
        list_files root fs d pat = .noMatch)
    ∧ (∀ es, list_files root fs d pat = .listing es →
        es.Sorted byName ∧ es ≠ [] ∧ es.Perm (globChildren fs t pat)
          ∧ ∀ e ∈ es, globMatch pat.toList e.name.toList = true)
    ∧ list_files root fs d pat = list_files root fs d pat := by
  refine ⟨?_, ?_, ?_, ?_, rfl⟩
  · intro hl
    unfold list_files
    rw [hsp]
    simp [hl]
  · intro c r dec hl
    unfold list_files
    rw [hsp]
    simp [hl]
  · intro hl he
    unfold list_files
    rw [hsp]
    simp [hl, he, List.insertionSort]
  · intro es hes
    unfold list_files at hes
    split at hes
    · cases hes
    · rename_i path h
      have hpt : path = t := by
        rw [hsp] at h
        exact (Except.ok.inj h).symm
      subst hpt
      split at hes
      · cases hes
      · cases hes
      · split at hes
        · cases hes
        · rename_i hdir hemp
          injection hes with hi
          subst hi
          refine ⟨List.sorted_insertionSort byName _, ?_,
            List.perm_insertionSort byName _, ?_⟩
          · intro hcontra
            rw [hcontra] at hemp
            simp at hemp
          · intro e hme
            have hmem2 := (List.perm_insertionSort byName
              (globChildren fs path pat)).mem_iff.mp hme
            have h2 : e ∈ childrenOf fs path ∧ globMatch pat.toList e.name.toList = true := by
              simpa [globChildren] using hmem2
            exact h2.2

/-- C8 witness: listing the empty workspace with a pattern matching
nothing yields the no-match message. -/
theorem c8_list_behaviour_witness :
    list_files root0 fs0 "" "*.txt" = .noMatch :=
  (c8_list_behaviour root0 fs0 "" "*.txt" ["ws"] rfl).2.2.1 rfl rfl

/-- The second component of the search fold counts one per visited
file, whether or not the file was skipped. -/
theorem searchFold_snd (root : List String) (kw : String) :
    ∀ (l : List (List String × String × Bool × Bool)) (acc : List SearchHit × Nat),
      (l.foldl (searchStep root kw) acc).2 = acc.2 + l.length := by
  intro l
  induction l with
  | nil => intro acc; simp
  | cons f rest ih =>
    intro acc
    rw [List.foldl_cons, ih]
    unfold searchStep
    split <;> simp <;> omega

/-- Change the host flags of the file stored at one path, leaving its
key, kind and content alone. -/
def flagEnt (k : List String) (r d : Bool) (e : List String × Node) :
    List String × Node :=
  if e.1 == k then
    (e.1, match e.2 with
          | .file c _ _ => Node.file c r d
          | n => n)
  else e

/-- A filesystem with one file's open-permission and decodability flags
replaced. -/
def setFlags (fs : Fs) (k : List String) (r d : Bool) : Fs :=
  fs.map (flagEnt k r d)

/-- Whether an entry is visited by the search loop does not depend on
its host flags. -/
theorem rglobEnt_flagEnt_isSome (t k : List String) (pat : String) (r d : Bool)
    (e : List String × Node) :
    (rglobEnt t pat (flagEnt k r d e)).isSome = (rglobEnt t pat e).isSome := by
  obtain ⟨key, n⟩ := e
  unfold flagEnt
  by_cases hk : (key == k) = true
  · simp only [hk, if_true]
    cases n with
    | dir => rfl
    | file c r0 d0 =>
      unfold rglobEnt
      cases hcond : (t.isPrefixOf key && !(key == t)
          && globMatch pat.toList (lastSeg key).toList) <;> simp [hcond]
  · simp [hk]

/-- Replacing entries without changing which ones a filter keeps
preserves the number of kept entries. -/
theorem length_filterMap_map {α β : Type} (f : α → Option β) (g : α → α)
    (h : ∀ a, (f (g a)).isSome = (f a).isSome) :
    ∀ l : List α, ((l.map g).filterMap f).length = (l.filterMap f).length := by
  intro l
  induction l with
  | nil => rfl
  | cons a rest ih =>
    rw [List.map_cons, List.filterMap_cons, List.filterMap_cons]
    have ha := h a
    cases h1 : f (g a) with
    | none =>
      cases h2 : f a with
      | none => simpa using ih
      | some b => rw [h1, h2] at ha; simp at ha
    | some b =>
      cases h2 : f a with
      | none => rw [h1, h2] at ha; simp at ha
      | some c => simp only [List.length_cons, ih]

/-- The search loop visits the same number of files after a flag change. -/
theorem rglobFiles_setFlags_length (fs : Fs) (t k : List String)
    (pat : String) (r d : Bool) :
    (rglobFiles (setFlags fs k r d) t pat).length = (rglobFiles fs t pat).length := by
  unfold rglobFiles setFlags
  exact length_filterMap_map (rglobEnt t pat) (flagEnt k r d)
    (rglobEnt_flagEnt_isSome t k pat r d) fs

/-- C9: the files-searched counter equals the number of regular files
below the directory whose names match the pattern — files that will be
silently skipped are counted exactly like scanned ones, so making any
file unreadable or undecodable leaves the reported count unchanged. -/
theorem c9_scanned_count (root : List String) (fs : Fs) (t k : List String)
    (kw pat : String) (r d : Bool) :
    (searchCore root fs t kw pat).2 = (rglobFiles fs t pat).length
    ∧ (searchCore root (setFlags fs k r d) t kw pat).2
        = (searchCore root fs t kw pat).2 := by
  constructor
  · unfold searchCore
    rw [searchFold_snd]
    simp
  · unfold searchCore
    rw [searchFold_snd, searchFold_snd]
    simp [rglobFiles_setFlags_length]

/-- No entry of the search loop survives when nothing lies strictly
below the search path. -/
theorem rglobFiles_nil_of_no_descendant (fs : Fs) (t : List String)
    (pat : String)
    (h : ∀ e ∈ fs, t.isPrefixOf e.1 = true → e.1 = t) :
    rglobFiles fs t pat = [] := by
  induction fs with
  | nil => rfl
  | cons e rest ih =>
    have hent : rglobEnt t pat e = none := by
      obtain ⟨key, n⟩ := e
      cases n with
      | dir => rfl
      | file c r dd =>
        unfold rglobEnt
        cases hp : t.isPrefixOf key with
        | false => simp [hp]
        | true =>
          have hk : key = t := h (key, .file c r dd) (List.mem_cons_self _ _) hp
          simp [hp, hk]
    unfold rglobFiles at ih ⊢
    rw [List.filterMap_cons, hent]
    exact ih fun x hx hpx => h x (List.mem_cons_of_mem _ hx) hpx

/-- C10: with confinement succeeding, search returns the not-found
message exactly when the resolved path is absent; when the resolved path
exists but is a regular file (and, as on a real filesystem, nothing lies
strictly below a file), search does not fail — it returns the no-hit
message with a files-searched count of zero. -/
theorem c10_search_on_file (root : List String) (fs : Fs) (kw pat d : String)
    (t : List String) (hsp : safe_path root d = .ok t) :
    ((search_files root fs kw pat d = .notFound) ↔ pathExists fs t = false)
    ∧ (∀ c r dec, lookupNode fs t = some (.file c r dec) →
        (∀ e ∈ fs, t.isPrefixOf e.1 = true → e.1 = t) →
        search_files root fs kw pat d = .noHits 0) := by
  constructor
  · unfold search_files
    rw [hsp]
    cases hex : pathExists fs t with
    | false => simp [hex]
    | true =>
      simp only [hex, Bool.not_true, Bool.false_eq_true, if_false]
      constructor
      · intro hcontr
        split at hcontr <;> cases hcontr
      · intro hcontr
        cases hcontr
  · intro c r dec hl hwf
    have hex : pathExists fs t = true := by
      unfold pathExists
      rw [hl]
      rfl
    have hrg := rglobFiles_nil_of_no_descendant fs t pat hwf
    unfold search_files
    rw [hsp]
    simp [hex, searchCore, hrg]

/-- C10 witness: searching with the search directory resolved to a
regular file returns the no-hit message with zero files searched. -/
theorem c10_search_on_file_witness :
    search_files root0 fsFile "x" "*.txt" "f.txt" = .noHits 0 :=
  (c10_search_on_file root0 fsFile "x" "*.txt" "f.txt" ["ws", "f.txt"] rfl).2
    "hello" true true rfl (by decide)
